import Mathlib

/-!
Verification of the WAL sender (`src/backend/replication/walsender.c`).

The development shallowly embeds the sender's pure control logic.  Machine
integers (`uint32`, `size_t`) are modelled as `Nat` with explicit reduction
modulo `2 ^ 32` (resp. `2 ^ 64`) wherever C unsigned overflow could occur.
File-system and transport effects are supplied by explicit oracles: each
`read`/`open`/`lseek`/`pq_flush` outcome is an input, so the functions here
are total and executable.
-/

namespace Walsender

/-- `2 ^ 32`, the modulus of C `uint32` arithmetic. -/
def W32 : Nat := 2 ^ 32

/-- `2 ^ 64`, the modulus of C `size_t` arithmetic. -/
def W64 : Nat := 2 ^ 64

/-- A WAL location: the pair `(xlogid, xrecoff)` of `uint32` fields
(`XLogRecPtr` from the headers; the spec calls it `(logId, recOff)`). -/
structure XLogRecPtr where
  xlogid : Nat
  xrecoff : Nat
deriving DecidableEq, Repr

/-- A pointer whose two fields fit in `uint32`. -/
def PtrWF (p : XLogRecPtr) : Prop := p.xlogid < W32 ∧ p.xrecoff < W32

instance (p : XLogRecPtr) : Decidable (PtrWF p) := by
  unfold PtrWF; infer_instance

/-- Modelled from the spec: the configuration constants `PAGE_SIZE`
(`XLOG_BLCKSZ`), `SEG_SIZE` (`XLogSegSize`), `FILE_SIZE` (`XLogFileSize`)
and `MAX_FRAME` (`MAX_SEND_SIZE`), which come from headers that are not
part of `src/`. -/
structure WalSndConsts where
  XLOG_BLCKSZ : Nat
  XLogSegSize : Nat
  XLogFileSize : Nat
  MAX_SEND_SIZE : Nat
deriving DecidableEq, Repr

/-- Modelled from the spec: the constraints the spec places on the
configuration constants (§4.3: `PAGE_SIZE ∣ SEG_SIZE`, `SEG_SIZE ∣
FILE_SIZE`; §9: `MAX_FRAME ≤ SEG_SIZE`; §3: `FILE_SIZE ≤ 2^32`, here
sharpened to `FILE_SIZE + MAX_FRAME ≤ 2^32`, which holds for every real
configuration since `FILE_SIZE = (0xffffffff / SEG_SIZE) * SEG_SIZE`). -/
structure ConstsWF (C : WalSndConsts) : Prop where
  blcksz_pos : 0 < C.XLOG_BLCKSZ
  blcksz_dvd_seg : C.XLOG_BLCKSZ ∣ C.XLogSegSize
  seg_dvd_file : C.XLogSegSize ∣ C.XLogFileSize
  file_pos : 0 < C.XLogFileSize
  blcksz_le_max : C.XLOG_BLCKSZ ≤ C.MAX_SEND_SIZE
  max_le_seg : C.MAX_SEND_SIZE ≤ C.XLogSegSize
  no_overflow : C.XLogFileSize + C.MAX_SEND_SIZE ≤ W32

/-- The stock PostgreSQL configuration: 8 KiB pages, 16 MiB segments,
255 segments per logical file, 128 KiB maximum frame. -/
def C0 : WalSndConsts :=
  { XLOG_BLCKSZ := 8192
    XLogSegSize := 16777216
    XLogFileSize := 4278190080
    MAX_SEND_SIZE := 131072 }

/-- Modelled from the spec: lexicographic `≤` on log positions
(the `XLByteLE` macro from the headers, spec §3). -/
def XLByteLE (a b : XLogRecPtr) : Prop :=
  a.xlogid < b.xlogid ∨ (a.xlogid = b.xlogid ∧ a.xrecoff ≤ b.xrecoff)

instance (a b : XLogRecPtr) : Decidable (XLByteLE a b) := by
  unfold XLByteLE; infer_instance

/-- Modelled from the spec: lexicographic `<` on log positions
(the `XLByteLT` macro from the headers, spec §3). -/
def XLByteLT (a b : XLogRecPtr) : Prop :=
  a.xlogid < b.xlogid ∨ (a.xlogid = b.xlogid ∧ a.xrecoff < b.xrecoff)

instance (a b : XLogRecPtr) : Decidable (XLByteLT a b) := by
  unfold XLByteLT; infer_instance

/-- Modelled from the spec: advancing a position by `nbytes`, skipping the
reserved last segment of a logical file (the `XLByteAdvance` macro; spec §3
"positions advance to `(logId+1, 0)`" when `recOff` reaches `FILE_SIZE`).
All `uint32` arithmetic carries an explicit `% W32`. -/
def XLByteAdvance (C : WalSndConsts) (r : XLogRecPtr) (nbytes : Nat) : XLogRecPtr :=
  if C.XLogFileSize ≤ (r.xrecoff + nbytes) % W32 then
    { xlogid := (r.xlogid + 1) % W32
      xrecoff := (r.xrecoff + nbytes) % W32 - C.XLogFileSize }
  else
    { xlogid := r.xlogid, xrecoff := (r.xrecoff + nbytes) % W32 }

/-- `uint32` subtraction `a - b` (two's-complement wraparound). -/
def sub32 (a b : Nat) : Nat := (a % W32 + (W32 - b % W32)) % W32

/-- `size_t` subtraction `a - b` (wraparound at `2 ^ 64`). -/
def sub64 (a b : Nat) : Nat := (a % W64 + (W64 - b % W64)) % W64

/-! ## Log reader state and oracles (`XLogRead`, lines 657-764) -/

/-- The sender's segment-file cursor: the statics `sendFile` (modelled as
the flag `sendFileOpen`), `sendId`, `sendSeg`, `sendOff`. -/
structure ReadState where
  sendFileOpen : Bool
  sendId : Nat
  sendSeg : Nat
  sendOff : Nat
deriving DecidableEq, Repr

/-- Result of one `BasicOpenFile` call, as reported by the file system. -/
inductive OpenRes where
  | ok
  | enoent
  | otherErr
deriving DecidableEq, Repr

/-- The file-system oracle for one iteration of the `XLogRead` loop:
the outcome of the `open` (consulted only when switching segments), of the
`lseek` (consulted only when a seek is needed), and the return value of
`read`. -/
structure FsStep where
  openRes : OpenRes
  seekOk : Bool
  readRes : Int
deriving DecidableEq, Repr

/-- The two error dispositions of `XLogRead`: "requested WAL segment has
already been removed" and all other file-access errors. -/
inductive XlrErr where
  | WAL_REMOVED
  | IO_ERROR
deriving DecidableEq, Repr

instance : DecidableEq (Except XlrErr ReadState) := fun a b =>
  match a, b with
  | Except.ok x, Except.ok y =>
      if h : x = y then isTrue (by rw [h])
      else isFalse (by intro hc; cases hc; exact h rfl)
  | Except.ok _, Except.error _ => isFalse fun hc => Except.noConfusion hc
  | Except.error _, Except.ok _ => isFalse fun hc => Except.noConfusion hc
  | Except.error x, Except.error y =>
      if h : x = y then isTrue (by rw [h])
      else isFalse (by intro hc; cases hc; exact h rfl)

/-- `XLByteInSeg` (headers): is `r` inside the currently open segment?
Also folds in the `sendFile < 0` test of line 675. -/
def inCurrentSeg (C : WalSndConsts) (st : ReadState) (r : XLogRecPtr) : Prop :=
  st.sendFileOpen = true ∧ r.xlogid = st.sendId ∧
    r.xrecoff / C.XLogSegSize = st.sendSeg

instance (C : WalSndConsts) (st : ReadState) (r : XLogRecPtr) :
    Decidable (inCurrentSeg C st r) := by
  unfold inCurrentSeg; infer_instance

/-- The segment-switch block of `XLogRead` (lines 675-709): keep the open
file if `r` lies in it, otherwise open the segment containing `r`.
`ENOENT` maps to `WAL_REMOVED`, any other open error to `IO_ERROR`. -/
def XLogReadOpen (C : WalSndConsts) (step : FsStep) (st : ReadState)
    (r : XLogRecPtr) : Except XlrErr ReadState :=
  if inCurrentSeg C st r then Except.ok st
  else
    match step.openRes with
    | OpenRes.ok =>
        Except.ok { sendFileOpen := true, sendId := r.xlogid
                    sendSeg := r.xrecoff / C.XLogSegSize, sendOff := 0 }
    | OpenRes.enoent => Except.error XlrErr.WAL_REMOVED
    | OpenRes.otherErr => Except.error XlrErr.IO_ERROR

/-- The request size of one `read` call (lines 722-726):
`min(nbytes, XLogSegSize - startoff)`. -/
def segRequest (C : WalSndConsts) (r : XLogRecPtr) (nbytes : Nat) : Nat :=
  let startoff := r.xrecoff % C.XLogSegSize
  if C.XLogSegSize - startoff < nbytes then C.XLogSegSize - startoff else nbytes

/-- Outcome of one iteration of the `XLogRead` copy loop.  `requested`
records the size handed to `read` (the iteration's `segbytes`); the loop
itself never consumes it. -/
inductive IterOut where
  | ok (requested : Nat) (st : ReadState) (recptr : XLogRecPtr) (nbytes : Nat)
  | err (e : XlrErr)
deriving DecidableEq, Repr

/-- One iteration of the `XLogRead` copy loop (lines 667-742), for
`nbytes > 0`: switch segment if needed, seek if needed, issue one `read` of
`segRequest` bytes; `read() <= 0` is an error, a positive return advances
the cursor and the position and decrements `nbytes`. -/
def XLogReadIter (C : WalSndConsts) (step : FsStep) (st : ReadState)
    (recptr : XLogRecPtr) (nbytes : Nat) : IterOut :=
  let startoff := recptr.xrecoff % C.XLogSegSize
  match XLogReadOpen C step st recptr with
  | Except.error e => IterOut.err e
  | Except.ok st1 =>
      if st1.sendOff ≠ startoff ∧ step.seekOk = false then
        IterOut.err XlrErr.IO_ERROR
      else
        if step.readRes ≤ 0 then IterOut.err XlrErr.IO_ERROR
        else
          let readbytes := step.readRes.toNat
          IterOut.ok (segRequest C recptr nbytes)
            { st1 with sendOff := (startoff + readbytes) % W32 }
            (XLByteAdvance C recptr readbytes)
            (sub64 nbytes readbytes)

/-- Outcome of a whole `XLogRead` call.  `outOfSteps` is a model artifact:
the oracle list ran out before the loop finished. -/
inductive ReadOut where
  | ok (st : ReadState)
  | err (e : XlrErr)
  | outOfSteps
deriving DecidableEq, Repr

/-- The `XLogRead` copy loop (lines 667-742): run iterations until
`nbytes = 0`, consuming one oracle entry per iteration. -/
def XLogReadLoop (C : WalSndConsts) :
    List FsStep → ReadState → XLogRecPtr → Nat → ReadOut
  | _, st, _, 0 => ReadOut.ok st
  | [], _, _, _ + 1 => ReadOut.outOfSteps
  | step :: rest, st, recptr, m + 1 =>
      match XLogReadIter C step st recptr (m + 1) with
      | IterOut.err e => ReadOut.err e
      | IterOut.ok _ st' recptr' nbytes' => XLogReadLoop C rest st' recptr' nbytes'

/-- `XLogRead` (lines 657-764): copy loop followed by the post-read check
of the writer's last-removed watermark against the segment of the
*original* start position `recptr` (lines 751-763). -/
def XLogRead (C : WalSndConsts) (lastRemovedLog lastRemovedSeg : Nat)
    (steps : List FsStep) (st : ReadState) (recptr : XLogRecPtr)
    (nbytes : Nat) : ReadOut :=
  match XLogReadLoop C steps st recptr nbytes with
  | ReadOut.outOfSteps => ReadOut.outOfSteps
  | ReadOut.err e => ReadOut.err e
  | ReadOut.ok st' =>
      let log := recptr.xlogid
      let seg := recptr.xrecoff / C.XLogSegSize
      if log < lastRemovedLog ∨ (log = lastRemovedLog ∧ seg ≤ lastRemovedSeg) then
        ReadOut.err XlrErr.WAL_REMOVED
      else ReadOut.ok st'

/-! ## The framer (`XLogSend`, lines 779-903) -/

/-- Lines 816-825 of `XLogSend`: if `sentPtr` sits at or past the end of
the logical file, skip the reserved last segment by advancing to the start
of the next `xlogid`. -/
def XLogSendStart (C : WalSndConsts) (sentPtr : XLogRecPtr) : XLogRecPtr :=
  if C.XLogFileSize ≤ sentPtr.xrecoff then
    { xlogid := (sentPtr.xlogid + 1) % W32, xrecoff := 0 }
  else sentPtr

/-- Lines 827-835 of `XLogSend`: tentatively advance `startptr` by
`MAX_SEND_SIZE`, then clamp to the end of `startptr`'s logical file if
that crossed a `xlogid` boundary. -/
def XLogSendEnd1 (C : WalSndConsts) (startptr : XLogRecPtr) : XLogRecPtr :=
  let endptr0 := XLByteAdvance C startptr C.MAX_SEND_SIZE
  if endptr0.xlogid ≠ startptr.xlogid then
    { xlogid := startptr.xlogid, xrecoff := C.XLogFileSize }
  else endptr0

/-- The frame-geometry computation of `XLogSend` (lines 816-848): skip the
reserved segment, tentatively advance by `MAX_SEND_SIZE`, clamp at the
logical-file boundary, then either clamp to the request (caught up) or
round down to a page boundary.  Returns `(startptr, endptr, caughtup)`. -/
def XLogSendFrame (C : WalSndConsts) (sentPtr SendRqstPtr : XLogRecPtr) :
    XLogRecPtr × XLogRecPtr × Bool :=
  let startptr := XLogSendStart C sentPtr
  let endptr1 := XLogSendEnd1 C startptr
  if XLByteLE SendRqstPtr endptr1 then (startptr, SendRqstPtr, true)
  else
    (startptr,
     { xlogid := endptr1.xlogid
       xrecoff := endptr1.xrecoff - endptr1.xrecoff % C.XLOG_BLCKSZ },
     false)

/-- The wire-visible content of one `'d'` (CopyData) frame: the message
header fields `dataStart` and `walEnd` and the WAL payload length. -/
structure SendEmit where
  dataStart : XLogRecPtr
  walEnd : XLogRecPtr
  nbytes : Nat
deriving DecidableEq, Repr

/-- The sender state `XLogSend` touches: the local `sentPtr` static, the
history of values written to the shared slot's `sentPtr` field (oldest
first; the slot currently holds the last entry), and the segment cursor. -/
structure SndState where
  sentPtr : XLogRecPtr
  slotHistory : List XLogRecPtr
  rd : ReadState
deriving DecidableEq, Repr

/-- What one successful return of `XLogSend` conveys: the new state, the
C return value (`false` = transport trouble), the `*caughtup` output, and
the frame emitted to the transport, if any. -/
structure SendOk where
  st : SndState
  result : Bool
  caughtup : Bool
  emit : Option SendEmit
deriving DecidableEq, Repr

/-- Outcome of a whole `XLogSend` call.  `err` is an `ereport(ERROR)`
escape from `XLogRead` (the process exits); `outOfSteps` is the oracle
artifact of `XLogRead`. -/
inductive SendOut where
  | ok (r : SendOk)
  | err (e : XlrErr)
  | outOfSteps
deriving DecidableEq, Repr

/-- `XLogSend` (lines 779-903).  `SendRqstPtr` is the `GetFlushRecPtr()`
value observed at the top of the call; `flushOk` is the outcome of the
`pq_flush` after the `'d'` message.  Quick exit when the request does not
exceed `sentPtr`; otherwise build the frame, read the payload, emit, and
on successful flush advance `sentPtr` and publish it into the slot. -/
def XLogSendM (C : WalSndConsts) (SendRqstPtr : XLogRecPtr)
    (steps : List FsStep) (lastRemovedLog lastRemovedSeg : Nat)
    (flushOk : Bool) (st : SndState) : SendOut :=
  if XLByteLE SendRqstPtr st.sentPtr then
    SendOut.ok { st := st, result := true, caughtup := true, emit := none }
  else
    let fr := XLogSendFrame C st.sentPtr SendRqstPtr
    let startptr := fr.1
    let endptr := fr.2.1
    let caughtup := fr.2.2
    let nbytes := sub32 endptr.xrecoff startptr.xrecoff
    match XLogRead C lastRemovedLog lastRemovedSeg steps st.rd startptr nbytes with
    | ReadOut.outOfSteps => SendOut.outOfSteps
    | ReadOut.err e => SendOut.err e
    | ReadOut.ok rd' =>
        let emit := SendEmit.mk startptr SendRqstPtr nbytes
        if flushOk = false then
          SendOut.ok { st := { st with rd := rd' }, result := false
                       caughtup := caughtup, emit := some emit }
        else
          SendOut.ok
            { st := { sentPtr := endptr
                      slotHistory := st.slotHistory ++ [endptr], rd := rd' }
              result := true, caughtup := caughtup, emit := some emit }

/-! ## Slot table (`InitWalSnd`, lines 579-632) -/

/-- The sender states of the shared slot (`WalSndState` in the headers). -/
inductive WalSndSt where
  | STARTUP
  | BACKUP
  | CATCHUP
  | STREAMING
deriving DecidableEq, Repr

/-- One shared-memory sender slot: the spinlock-protected fields `pid`,
`state`, `sentPtr` (`pid = 0` iff the slot is free). -/
structure Slot where
  pid : Nat
  state : WalSndSt
  sentPtr : XLogRecPtr
deriving DecidableEq, Repr

/-- `InitWalSnd` (lines 592-628): scan the slot array in index order and
claim the first slot whose `pid` is `0` by setting `pid`, zeroing
`sentPtr` and setting `state = STARTUP`; `none` models the
`TOO_MANY_SENDERS` fatal error when no slot is free (in particular when
the table is empty, i.e. `max_wal_senders = 0`). -/
def InitWalSnd (myPid : Nat) : List Slot → Option (List Slot)
  | [] => none
  | s :: rest =>
      if s.pid ≠ 0 then
        match InitWalSnd myPid rest with
        | none => none
        | some rest' => some (s :: rest')
      else
        some ({ pid := myPid, state := WalSndSt.STARTUP
                sentPtr := { xlogid := 0, xrecoff := 0 } } :: rest)

/-! ## Handshake dispatch (`WalSndHandshake`, lines 174-251) -/

/-- Inputs of one `WalSndHandshake` loop iteration: the `pq_getbyte`
result (`-1` is `EOF`), the supervisor liveness probe, and whether the
`pq_getmessage` call (made only for a non-`EOF` first byte) succeeded. -/
structure HsIn where
  firstchar : Int
  alive : Bool
  msgOk : Bool
deriving DecidableEq, Repr

/-- The five possible dispositions of one handshake iteration. -/
inductive HsOut where
  | exitPostmasterDead
  | handleQuery
  | exitClientClose
  | exitEOFLogged
  | fatalProtocolViolation
deriving DecidableEq, Repr

/-- One iteration of `WalSndHandshake` (lines 184-249): bail out if the
postmaster died; a failed `pq_getmessage` turns the first byte into `EOF`;
then dispatch on `'Q'` (81), `'X'` (88), `EOF` (-1), default. -/
def WalSndHandshakeStep (inp : HsIn) : HsOut :=
  if inp.alive = false then HsOut.exitPostmasterDead
  else
    let fc := if inp.firstchar ≠ -1 ∧ inp.msgOk = false then -1 else inp.firstchar
    if fc = 81 then HsOut.handleQuery
    else if fc = 88 then HsOut.exitClientClose
    else if fc = -1 then HsOut.exitEOFLogged
    else HsOut.fatalProtocolViolation

/-! ## Main loop (`WalSndLoop`, lines 469-576) -/

/-- The arguments one `XLogSend` call depends on: the flush-request
pointer the writer reports, the file-system oracle, the last-removed
watermark, and the transport-flush outcome. -/
structure SendArgs where
  rqst : XLogRecPtr
  steps : List FsStep
  lastRemovedLog : Nat
  lastRemovedSeg : Nat
  flushOk : Bool
deriving DecidableEq, Repr

/-- Run `XLogSendM` with bundled arguments. -/
def doSend (C : WalSndConsts) (a : SendArgs) (st : SndState) : SendOut :=
  XLogSendM C a.rqst a.steps a.lastRemovedLog a.lastRemovedSeg a.flushOk st

/-- The loop-visible state of the sender: the three signal flags the loop
consumes, the `caughtup` local of `WalSndLoop`, and the send state. -/
structure LoopState where
  gotSIGHUP : Bool
  ready_to_stop : Bool
  shutdown_requested : Bool
  caughtup : Bool
  snd : SndState
deriving DecidableEq, Repr

/-- Per-iteration oracle inputs of `WalSndLoop`: supervisor liveness, the
two potential `XLogSend` calls, and the `pq_getbyte_if_available` result
of `CheckClosedConnection` (`ccAvail < 0` error/EOF, `= 0` nothing,
`> 0` one byte `ccByte`). -/
structure IterIn where
  alive : Bool
  send1 : SendArgs
  send2 : SendArgs
  ccAvail : Int
  ccByte : Nat
deriving DecidableEq, Repr

/-- How one `WalSndLoop` iteration ends. -/
inductive LoopOut where
  | exit1
  | copyDoneExit (tag : Char) (payload : String)
  | sendFailBreak
  | readError (e : XlrErr)
  | ccExit
  | ccFatal
  | outOfSteps
  | next (st : LoopState)
deriving DecidableEq, Repr

/-- `CheckClosedConnection` (lines 430-466) plus the continue case:
a negative poll result or an `'X'` byte exits with status 0, any other
byte is a fatal protocol violation, no data continues the loop. -/
def CheckClosedConnectionStep (inp : IterIn) (st : LoopState) : LoopOut :=
  if inp.ccAvail < 0 then LoopOut.ccExit
  else if inp.ccAvail = 0 then LoopOut.next st
  else if inp.ccByte = 88 then LoopOut.ccExit
  else LoopOut.ccFatal

/-- Lines 525-562 of `WalSndLoop`: if the previous round caught up, reset
the latch, send once more, possibly nap (unobservable here), then probe
for a client close; otherwise just send once. -/
def WalSndLoopPhase3 (C : WalSndConsts) (inp : IterIn) (st : LoopState) : LoopOut :=
  if st.caughtup then
    match doSend C inp.send2 st.snd with
    | SendOut.outOfSteps => LoopOut.outOfSteps
    | SendOut.err e => LoopOut.readError e
    | SendOut.ok r =>
        if r.result = false then LoopOut.sendFailBreak
        else CheckClosedConnectionStep inp
          { st with snd := r.st, caughtup := r.caughtup }
  else
    match doSend C inp.send2 st.snd with
    | SendOut.outOfSteps => LoopOut.outOfSteps
    | SendOut.err e => LoopOut.readError e
    | SendOut.ok r =>
        if r.result = false then LoopOut.sendFailBreak
        else LoopOut.next { st with snd := r.st, caughtup := r.caughtup }

/-- Lines 512-519 of `WalSndLoop`: the normal-exit check.  When
`shutdown_requested` is observed the sender emits the `'C'` copy-done
message with payload `"COPY 0"`, flushes and exits 0. -/
def WalSndLoopPhase2 (C : WalSndConsts) (inp : IterIn) (st : LoopState) : LoopOut :=
  if st.shutdown_requested then LoopOut.copyDoneExit 'C' "COPY 0"
  else WalSndLoopPhase3 C inp st

/-- One full iteration of `WalSndLoop` (lines 483-563): postmaster check,
config-reload flag clearing, the `ready_to_stop` final-flush block
(lines 503-509: send; on success and `caughtup` upgrade to
`shutdown_requested`), then the shutdown check and the send phases. -/
def WalSndLoopIter (C : WalSndConsts) (inp : IterIn) (st : LoopState) : LoopOut :=
  if inp.alive = false then LoopOut.exit1
  else
    let st0 := { st with gotSIGHUP := false }
    if st0.ready_to_stop then
      match doSend C inp.send1 st0.snd with
      | SendOut.outOfSteps => LoopOut.outOfSteps
      | SendOut.err e => LoopOut.readError e
      | SendOut.ok r =>
          if r.result = false then LoopOut.sendFailBreak
          else WalSndLoopPhase2 C inp
            { st0 with snd := r.st, caughtup := r.caughtup
                       shutdown_requested := st0.shutdown_requested || r.caughtup }
    else WalSndLoopPhase2 C inp st0

/-! ## A sender lifetime, for the published-`sentPtr` invariant -/

/-- Fold a list of `XLogSend` calls over the sender state, stopping at the
first failed call (the real loop breaks and the process exits there). -/
def senderRun (C : WalSndConsts) : List SendArgs → SndState → SndState
  | [], st => st
  | a :: rest, st =>
      match doSend C a st with
      | SendOut.ok r => if r.result then senderRun C rest r.st else r.st
      | _ => st

/-- A sender lifetime: `InitWalSnd` publishes `(0,0)` into the slot,
`WalSenderMain` publishes the handshake's start point (lines 158-165 after
`StartReplication` set `sentPtr = cmd->startpoint`), then the streaming
loop runs `XLogSend` repeatedly. -/
def senderLifetime (C : WalSndConsts) (startpoint : XLogRecPtr)
    (sends : List SendArgs) : SndState :=
  senderRun C sends
    { sentPtr := startpoint
      slotHistory := [{ xlogid := 0, xrecoff := 0 }, startpoint]
      rd := { sendFileOpen := false, sendId := 0, sendSeg := 0, sendOff := 0 } }

/-! ## Where `WAL_REMOVED` can arise in the copy loop -/

/-- The copy loop hits an `ENOENT` on a segment open: the only in-loop
source of `WAL_REMOVED`. -/
def loopHitsEnoent (C : WalSndConsts) :
    List FsStep → ReadState → XLogRecPtr → Nat → Prop
  | [], _, _, _ => False
  | step :: rest, st, recptr, nbytes =>
      nbytes ≠ 0 ∧
      ((¬inCurrentSeg C st recptr ∧ step.openRes = OpenRes.enoent) ∨
       (∃ q st' r' n', XLogReadIter C step st recptr nbytes = IterOut.ok q st' r' n' ∧
          loopHitsEnoent C rest st' r' n'))

/-! ## Arithmetic and order helpers -/

theorem W32_eq : W32 = 4294967296 := by norm_num [W32]

theorem W64_eq : W64 = 18446744073709551616 := by norm_num [W64]

theorem XLByteLE_refl (a : XLogRecPtr) : XLByteLE a a := Or.inr ⟨rfl, le_refl _⟩

theorem XLByteLT_iff_not_le (a b : XLogRecPtr) : XLByteLT a b ↔ ¬ XLByteLE b a := by
  unfold XLByteLT XLByteLE; omega

theorem XLByteLE_of_lt {a b : XLogRecPtr} (h : XLByteLT a b) : XLByteLE a b := by
  unfold XLByteLT at h; unfold XLByteLE; omega

theorem XLByteLE_trans {a b c : XLogRecPtr} (h1 : XLByteLE a b)
    (h2 : XLByteLE b c) : XLByteLE a c := by
  unfold XLByteLE at h1 h2 ⊢
  omega

theorem sub32_eq (a b : Nat) (h : b ≤ a) (ha : a < W32) : sub32 a b = a - b := by
  unfold sub32
  have hb : b < W32 := lt_of_le_of_lt h ha
  rw [Nat.mod_eq_of_lt ha, Nat.mod_eq_of_lt hb]
  have h1 : a + (W32 - b) = (a - b) + W32 := by omega
  rw [h1, Nat.add_mod_right, Nat.mod_eq_of_lt (by omega)]

theorem succ_mod_W32_ne (a : Nat) (ha : a < W32) : (a + 1) % W32 ≠ a := by
  by_cases h : a + 1 < W32
  · rw [Nat.mod_eq_of_lt h]; omega
  · have h1 : a + 1 = W32 := by omega
    have h2 := W32_eq
    rw [h1, Nat.mod_self]
    omega

/-! ## The geometry of one frame -/

theorem XLogSendEnd1_eq (C : WalSndConsts) (hC : ConstsWF C) (s0 : XLogRecPtr)
    (hsL : s0.xlogid < W32) (hsx : s0.xrecoff < C.XLogFileSize) :
    XLogSendEnd1 C s0 =
      { xlogid := s0.xlogid
        xrecoff := if C.XLogFileSize ≤ s0.xrecoff + C.MAX_SEND_SIZE
                   then C.XLogFileSize else s0.xrecoff + C.MAX_SEND_SIZE } := by
  have hMp : 0 < C.MAX_SEND_SIZE := lt_of_lt_of_le hC.blcksz_pos hC.blcksz_le_max
  have hno := hC.no_overflow
  have hm : (s0.xrecoff + C.MAX_SEND_SIZE) % W32 = s0.xrecoff + C.MAX_SEND_SIZE :=
    Nat.mod_eq_of_lt (by omega)
  unfold XLogSendEnd1 XLByteAdvance
  dsimp only
  rw [hm]
  by_cases hcr : C.XLogFileSize ≤ s0.xrecoff + C.MAX_SEND_SIZE
  · rw [if_pos hcr, if_pos hcr]
    dsimp only
    rw [if_pos (succ_mod_W32_ne s0.xlogid hsL)]
  · rw [if_neg hcr, if_neg hcr]
    dsimp only
    rw [if_neg (fun h : s0.xlogid ≠ s0.xlogid => h rfl)]

/-- The shared endgame of `XLogSendFrame` once the reserved-segment skip
has been resolved: `s0` is the start pointer, the `if` is the literal
caught-up/page-round branch of the code. -/
theorem XLogSendFrame_core (C : WalSndConsts) (hC : ConstsWF C)
    (s0 Rqst : XLogRecPtr) (hsL : s0.xlogid < W32)
    (hsx : s0.xrecoff < C.XLogFileSize)
    (hr : PtrWF Rqst) (hrF : Rqst.xrecoff < C.XLogFileSize)
    (hge : XLByteLE s0 Rqst)
    (s e : XLogRecPtr) (cu : Bool)
    (hfe : (if XLByteLE Rqst (XLogSendEnd1 C s0) then (s0, Rqst, true)
            else (s0,
              ({ xlogid := (XLogSendEnd1 C s0).xlogid
                 xrecoff := (XLogSendEnd1 C s0).xrecoff -
                   (XLogSendEnd1 C s0).xrecoff % C.XLOG_BLCKSZ } : XLogRecPtr),
              false)) = (s, e, cu)) :
    s = s0 ∧ e.xlogid = s0.xlogid ∧ s0.xrecoff ≤ e.xrecoff ∧
    e.xrecoff ≤ C.XLogFileSize ∧
    e.xrecoff - s0.xrecoff ≤ C.MAX_SEND_SIZE ∧
    (cu = true → e = Rqst) ∧
    (cu = false → e.xrecoff % C.XLOG_BLCKSZ = 0 ∧ s0.xrecoff < e.xrecoff ∧
      (C.XLogFileSize ≤ s0.xrecoff + C.MAX_SEND_SIZE →
        e.xrecoff = C.XLogFileSize)) ∧
    XLByteLE e Rqst ∧ PtrWF e := by
  have hMp : 0 < C.MAX_SEND_SIZE := lt_of_lt_of_le hC.blcksz_pos hC.blcksz_le_max
  have hno := hC.no_overflow
  have hFW : C.XLogFileSize < W32 := by omega
  have hPdvdF : C.XLOG_BLCKSZ ∣ C.XLogFileSize :=
    dvd_trans hC.blcksz_dvd_seg hC.seg_dvd_file
  have hFmod : C.XLogFileSize % C.XLOG_BLCKSZ = 0 := by
    obtain ⟨k, hk⟩ := hPdvdF
    rw [hk, Nat.mul_mod_right]
  rw [XLogSendEnd1_eq C hC s0 hsL hsx] at hfe
  dsimp only at hfe
  set e1x := if C.XLogFileSize ≤ s0.xrecoff + C.MAX_SEND_SIZE then C.XLogFileSize
             else s0.xrecoff + C.MAX_SEND_SIZE with he1x
  have he11 : s0.xrecoff ≤ e1x := by rw [he1x]; split <;> omega
  have he12 : e1x ≤ C.XLogFileSize := by rw [he1x]; split <;> omega
  have he13 : e1x ≤ s0.xrecoff + C.MAX_SEND_SIZE := by rw [he1x]; split <;> omega
  have he14 : C.XLogFileSize ≤ s0.xrecoff + C.MAX_SEND_SIZE →
      e1x = C.XLogFileSize := by
    intro h; rw [he1x, if_pos h]
  split at hfe
  · next hle =>
      simp only [Prod.mk.injEq] at hfe
      obtain ⟨hss, hee, hcc⟩ := hfe
      subst hss; subst hee; subst hcc
      unfold XLByteLE at hle hge
      dsimp only at hle
      have hkey : Rqst.xlogid = s0.xlogid ∧ s0.xrecoff ≤ Rqst.xrecoff ∧
          Rqst.xrecoff ≤ e1x := by omega
      refine ⟨rfl, hkey.1, hkey.2.1, le_of_lt hrF, by omega,
        fun _ => rfl, fun h => Bool.noConfusion h, XLByteLE_refl Rqst, hr⟩
  · next hnle =>
      simp only [Prod.mk.injEq] at hfe
      obtain ⟨hss, hee, hcc⟩ := hfe
      subst hss; subst hee; subst hcc
      have hlt1 := (XLByteLT_iff_not_le { xlogid := s0.xlogid, xrecoff := e1x }
        Rqst).mpr hnle
      unfold XLByteLT at hlt1
      dsimp only at hlt1
      have hdm := Nat.div_add_mod e1x C.XLOG_BLCKSZ
      have hmodlt : e1x % C.XLOG_BLCKSZ < C.XLOG_BLCKSZ :=
        Nat.mod_lt _ hC.blcksz_pos
      have hexmod : (e1x - e1x % C.XLOG_BLCKSZ) % C.XLOG_BLCKSZ = 0 := by
        have hx : e1x - e1x % C.XLOG_BLCKSZ =
            C.XLOG_BLCKSZ * (e1x / C.XLOG_BLCKSZ) := by omega
        rw [hx, Nat.mul_mod_right]
      have hsex : s0.xrecoff < e1x - e1x % C.XLOG_BLCKSZ := by
        by_cases hcr : C.XLogFileSize ≤ s0.xrecoff + C.MAX_SEND_SIZE
        · have hFe := he14 hcr
          rw [hFe, hFmod]
          omega
        · have he1v : e1x = s0.xrecoff + C.MAX_SEND_SIZE := by
            rw [he1x, if_neg hcr]
          have hPM := hC.blcksz_le_max
          omega
      refine ⟨rfl, rfl, le_of_lt hsex, by dsimp only; omega, by dsimp only; omega,
        fun h => Bool.noConfusion h,
        fun _ => ⟨hexmod, hsex, fun hcr => by rw [he14 hcr, hFmod]; rfl⟩,
        ?_, ⟨hsL, by dsimp only; omega⟩⟩
      unfold XLByteLE
      dsimp only
      omega

/-- The full frame-geometry specification of `XLogSendFrame`, under the
spec's well-formedness of the constants, `uint32`-in-range pointers, a
writer-reported request outside the reserved segment, and the quick-exit
guard having failed (`sentPtr < SendRqstPtr`). -/
theorem XLogSendFrame_spec (C : WalSndConsts) (hC : ConstsWF C)
    (sentPtr Rqst : XLogRecPtr) (hs : PtrWF sentPtr) (hr : PtrWF Rqst)
    (hrF : Rqst.xrecoff < C.XLogFileSize)
    (hq : ¬ XLByteLE Rqst sentPtr)
    (s e : XLogRecPtr) (cu : Bool)
    (hfr : XLogSendFrame C sentPtr Rqst = (s, e, cu)) :
    e.xlogid = s.xlogid ∧ s.xrecoff ≤ e.xrecoff ∧
    e.xrecoff ≤ C.XLogFileSize ∧ s.xrecoff < C.XLogFileSize ∧
    e.xrecoff - s.xrecoff ≤ C.MAX_SEND_SIZE ∧
    (cu = true → e = Rqst) ∧
    (cu = false → e.xrecoff % C.XLOG_BLCKSZ = 0 ∧ s.xrecoff < e.xrecoff ∧
      (C.XLogFileSize ≤ s.xrecoff + C.MAX_SEND_SIZE →
        e.xrecoff = C.XLogFileSize)) ∧
    XLByteLE e Rqst ∧ XLByteLT sentPtr e ∧ PtrWF e := by
  have hlt : XLByteLT sentPtr Rqst := (XLByteLT_iff_not_le sentPtr Rqst).mpr hq
  have hnowrap : C.XLogFileSize ≤ sentPtr.xrecoff → sentPtr.xlogid + 1 < W32 := by
    intro hsk
    unfold XLByteLT at hlt
    rcases hlt with h | ⟨h1, h2⟩
    · have := hr.1; omega
    · omega
  unfold XLogSendFrame at hfr
  dsimp only at hfr
  by_cases hsk : C.XLogFileSize ≤ sentPtr.xrecoff
  · have hSeq : XLogSendStart C sentPtr =
        { xlogid := sentPtr.xlogid + 1, xrecoff := 0 } := by
      unfold XLogSendStart
      rw [if_pos hsk, Nat.mod_eq_of_lt (hnowrap hsk)]
    rw [hSeq] at hfr
    have hge : XLByteLE { xlogid := sentPtr.xlogid + 1, xrecoff := 0 } Rqst := by
      unfold XLByteLT at hlt
      unfold XLByteLE
      dsimp only
      rcases hlt with h | ⟨h1, h2⟩ <;> omega
    have hcore := XLogSendFrame_core C hC
      { xlogid := sentPtr.xlogid + 1, xrecoff := 0 } Rqst
      (hnowrap hsk) hC.file_pos hr hrF hge s e cu hfr
    obtain ⟨hss, h1, h2, h3, h5, h6, h7, h8, h9⟩ := hcore
    subst hss
    refine ⟨h1, h2, h3, hC.file_pos, h5, h6, h7, h8, ?_, h9⟩
    unfold XLByteLT
    left
    rw [h1]
    dsimp only
    omega
  · have hSeq : XLogSendStart C sentPtr = sentPtr := by
      unfold XLogSendStart
      rw [if_neg hsk]
    rw [hSeq] at hfr
    have hge : XLByteLE sentPtr Rqst := XLByteLE_of_lt hlt
    have hsx : sentPtr.xrecoff < C.XLogFileSize := by omega
    have hcore := XLogSendFrame_core C hC sentPtr Rqst hs.1 hsx hr hrF hge
      s e cu hfr
    obtain ⟨hss, h1, h2, h3, h5, h6, h7, h8, h9⟩ := hcore
    subst hss
    refine ⟨h1, h2, h3, hsx, h5, h6, h7, h8, ?_, h9⟩
    cases cu
    · obtain ⟨_, hlt2, _⟩ := h7 rfl
      unfold XLByteLT
      right
      exact ⟨h1.symm, hlt2⟩
    · rw [h6 rfl]
      exact hlt

/-- The stock configuration satisfies the spec constraints. -/
theorem C0_wf : ConstsWF C0 := by
  refine ⟨?_, ?_, ?_, ?_, ?_, ?_, ?_⟩ <;> decide

/-- Claim C1: every frame built by `XLogSend` covers a byte range
`[start, end)` that never crosses a `xlogid` boundary (when
`start + MAX_SEND_SIZE` would cross, `end` is clamped to
`recOff = XLogFileSize` of `start`'s `xlogid`), and whenever the frame
does not end at the requested flush position (`caughtup = false`),
`end.xrecoff` is rounded down to a `XLOG_BLCKSZ` multiple. -/
theorem claim_C1_frame_range (C : WalSndConsts) (hC : ConstsWF C)
    (sentPtr Rqst : XLogRecPtr) (hs : PtrWF sentPtr) (hr : PtrWF Rqst)
    (hrF : Rqst.xrecoff < C.XLogFileSize)
    (hq : ¬ XLByteLE Rqst sentPtr)
    (s e : XLogRecPtr) (cu : Bool)
    (hfr : XLogSendFrame C sentPtr Rqst = (s, e, cu)) :
    e.xlogid = s.xlogid ∧ s.xrecoff ≤ e.xrecoff ∧
    e.xrecoff ≤ C.XLogFileSize ∧
    (cu = false → e.xrecoff % C.XLOG_BLCKSZ = 0) ∧
    (cu = false → C.XLogFileSize ≤ s.xrecoff + C.MAX_SEND_SIZE →
      e.xrecoff = C.XLogFileSize) := by
  obtain ⟨h1, h2, h3, _, _, _, h7, _, _, _⟩ :=
    XLogSendFrame_spec C hC sentPtr Rqst hs hr hrF hq s e cu hfr
  exact ⟨h1, h2, h3, fun h => (h7 h).1, fun h hcr => (h7 h).2.2 hcr⟩

/-- Witness for C1 at `sentPtr = (1,0)`, `SendRqstPtr = (1,300)`. -/
theorem claim_C1_frame_range_witness :
    XLogSendFrame C0 { xlogid := 1, xrecoff := 0 } { xlogid := 1, xrecoff := 300 } =
      ({ xlogid := 1, xrecoff := 0 }, { xlogid := 1, xrecoff := 300 }, true) ∧
    ({ xlogid := 1, xrecoff := 300 } : XLogRecPtr).xlogid =
      ({ xlogid := 1, xrecoff := 0 } : XLogRecPtr).xlogid ∧
    ({ xlogid := 1, xrecoff := 0 } : XLogRecPtr).xrecoff ≤
      ({ xlogid := 1, xrecoff := 300 } : XLogRecPtr).xrecoff ∧
    ({ xlogid := 1, xrecoff := 300 } : XLogRecPtr).xrecoff ≤ C0.XLogFileSize := by
  have h := claim_C1_frame_range C0 C0_wf
    { xlogid := 1, xrecoff := 0 } { xlogid := 1, xrecoff := 300 }
    (by decide) (by decide) (by decide) (by decide)
    { xlogid := 1, xrecoff := 0 } { xlogid := 1, xrecoff := 300 } true (by decide)
  exact ⟨by decide, h.1, h.2.1, h.2.2.1⟩

/-! ## Claim theorems: handshake, slot table, reader basics -/

/-- Claim C9: in the handshake phase the dispatch on the first message byte
is total and exact: `'X'` (88) exits cleanly, `EOF` (-1) logs a protocol
violation and exits 0, and any byte other than `'Q'` (81), `'X'`, `EOF` is
a fatal `PROTOCOL_VIOLATION`. -/
theorem claim_C9_handshake_dispatch (inp : HsIn) (ha : inp.alive = true)
    (hm : inp.msgOk = true) :
    (inp.firstchar = 88 → WalSndHandshakeStep inp = HsOut.exitClientClose) ∧
    (inp.firstchar = -1 → WalSndHandshakeStep inp = HsOut.exitEOFLogged) ∧
    (inp.firstchar ≠ 81 → inp.firstchar ≠ 88 → inp.firstchar ≠ -1 →
      WalSndHandshakeStep inp = HsOut.fatalProtocolViolation) := by
  refine ⟨?_, ?_, ?_⟩
  · intro h; simp [WalSndHandshakeStep, ha, hm, h]
  · intro h; simp [WalSndHandshakeStep, ha, hm, h]
  · intro h1 h2 h3; simp [WalSndHandshakeStep, ha, hm, h1, h2, h3]

/-- Witness for C9 at the three concrete bytes 88, -1, 90. -/
theorem claim_C9_handshake_dispatch_witness :
    WalSndHandshakeStep { firstchar := 88, alive := true, msgOk := true } =
      HsOut.exitClientClose ∧
    WalSndHandshakeStep { firstchar := -1, alive := true, msgOk := true } =
      HsOut.exitEOFLogged ∧
    WalSndHandshakeStep { firstchar := 90, alive := true, msgOk := true } =
      HsOut.fatalProtocolViolation :=
  ⟨(claim_C9_handshake_dispatch _ rfl rfl).1 rfl,
   (claim_C9_handshake_dispatch _ rfl rfl).2.1 rfl,
   (claim_C9_handshake_dispatch _ rfl rfl).2.2 (by decide) (by decide) (by decide)⟩

/-- Claim C8: slot acquisition scans the table in index order, claims the
first slot whose `pid` is 0 by setting `pid` to the caller, `state` to
`STARTUP` and `sentPtr` to `(0,0)`, and fails with `TOO_MANY_SENDERS`
(modelled as `none`) when no slot is free — in particular whenever the
table is empty (`max_wal_senders = 0`). -/
theorem claim_C8_slot_acquire (myPid : Nat) (slots : List Slot) :
    ((∀ s ∈ slots, s.pid ≠ 0) → InitWalSnd myPid slots = none) ∧
    (∀ i, (hi : i < slots.length) → (slots.get ⟨i, hi⟩).pid = 0 →
      (∀ s ∈ slots.take i, s.pid ≠ 0) →
      InitWalSnd myPid slots =
        some (slots.set i
          { pid := myPid, state := WalSndSt.STARTUP
            sentPtr := { xlogid := 0, xrecoff := 0 } })) := by
  induction slots with
  | nil =>
      refine ⟨fun _ => rfl, ?_⟩
      intro i hi
      exact absurd hi (by simp)
  | cons s rest ih =>
      constructor
      · intro h
        have hs : s.pid ≠ 0 := h s (List.mem_cons_self s rest)
        have hr := ih.1 fun x hx => h x (List.mem_cons_of_mem _ hx)
        simp [InitWalSnd, hs, hr]
      · intro i hi hz hprev
        cases i with
        | zero =>
            have hs : s.pid = 0 := hz
            simp [InitWalSnd, hs]
        | succ j =>
            have hs : s.pid ≠ 0 := by
              have hmem : s ∈ (s :: rest).take (j + 1) := by
                rw [List.take_succ_cons]
                exact List.mem_cons_self s _
              exact hprev s hmem
            have hj : j < rest.length := Nat.lt_of_succ_lt_succ hi
            have hz' : (rest.get ⟨j, hj⟩).pid = 0 := hz
            have hprev' : ∀ x ∈ rest.take j, x.pid ≠ 0 := by
              intro x hx
              refine hprev x ?_
              rw [List.take_succ_cons]
              exact List.mem_cons_of_mem _ hx
            have hres := ih.2 j hj hz' hprev'
            simp [InitWalSnd, hs, hres]

/-- Witness for C8: a three-slot table whose first free slot is index 1. -/
theorem claim_C8_slot_acquire_witness :
    InitWalSnd 42
      [{ pid := 7, state := WalSndSt.STREAMING, sentPtr := { xlogid := 1, xrecoff := 2 } },
       { pid := 0, state := WalSndSt.BACKUP, sentPtr := { xlogid := 9, xrecoff := 9 } },
       { pid := 0, state := WalSndSt.BACKUP, sentPtr := { xlogid := 3, xrecoff := 3 } }] =
    some
      [{ pid := 7, state := WalSndSt.STREAMING, sentPtr := { xlogid := 1, xrecoff := 2 } },
       { pid := 42, state := WalSndSt.STARTUP, sentPtr := { xlogid := 0, xrecoff := 0 } },
       { pid := 0, state := WalSndSt.BACKUP, sentPtr := { xlogid := 3, xrecoff := 3 } }] := by
  have h := (claim_C8_slot_acquire 42
    [{ pid := 7, state := WalSndSt.STREAMING, sentPtr := { xlogid := 1, xrecoff := 2 } },
     { pid := 0, state := WalSndSt.BACKUP, sentPtr := { xlogid := 9, xrecoff := 9 } },
     { pid := 0, state := WalSndSt.BACKUP, sentPtr := { xlogid := 3, xrecoff := 3 } }]).2
    1 (by decide) (by decide) (by decide)
  simpa using h

/-- Counterexample to claim C4 as stated: with stock constants, reading 10
bytes starting at position `(0, SEG_SIZE)`, the first `read` requests
`min(10, SEG_SIZE) = 10` bytes but returns only 4 (a short positive read);
`XLogRead` does not fail with `IO_ERROR` — it retries and succeeds. -/
theorem claim_C4_counterexample :
    segRequest C0 { xlogid := 0, xrecoff := 16777216 } 10 = 10 ∧
    (4 : Int) < 10 ∧
    XLogRead C0 0 0
      [{ openRes := OpenRes.ok, seekOk := true, readRes := 4 },
       { openRes := OpenRes.ok, seekOk := true, readRes := 6 }]
      { sendFileOpen := false, sendId := 0, sendSeg := 0, sendOff := 0 }
      { xlogid := 0, xrecoff := 16777216 } 10 =
      ReadOut.ok { sendFileOpen := true, sendId := 0, sendSeg := 1, sendOff := 10 } := by
  decide

/-- Claim C4, amended: each low-level read requests
`min(n, SEG_SIZE - startOff)` bytes; a zero-byte or failed read
(`read() <= 0`) fails the whole call with `IO_ERROR`; a short positive
read does not fail — the loop advances and retries. -/
theorem claim_C4_read_requests (C : WalSndConsts) (step : FsStep)
    (st : ReadState) (recptr : XLogRecPtr) (nbytes : Nat) :
    segRequest C recptr nbytes =
      min nbytes (C.XLogSegSize - recptr.xrecoff % C.XLogSegSize) ∧
    (∀ st1, XLogReadOpen C step st recptr = Except.ok st1 →
      (st1.sendOff = recptr.xrecoff % C.XLogSegSize ∨ step.seekOk = true) →
      ((step.readRes ≤ 0 →
          XLogReadIter C step st recptr nbytes = IterOut.err XlrErr.IO_ERROR) ∧
       (0 < step.readRes →
          ∃ st' r' n', XLogReadIter C step st recptr nbytes =
            IterOut.ok (segRequest C recptr nbytes) st' r' n'))) := by
  constructor
  · unfold segRequest
    simp only [Nat.min_def]
    split <;> split <;> omega
  · intro st1 hopen hseek
    have hcond : ¬ (st1.sendOff ≠ recptr.xrecoff % C.XLogSegSize ∧ step.seekOk = false) := by
      rcases hseek with h | h
      · intro hc; exact hc.1 h
      · intro hc; rw [h] at hc; exact Bool.noConfusion hc.2
    constructor
    · intro hr
      unfold XLogReadIter
      rw [hopen]
      simp only [hcond, if_false, if_neg hcond]
      rw [if_pos hr]
    · intro hr
      unfold XLogReadIter
      rw [hopen]
      simp only [if_neg hcond]
      rw [if_neg (by omega : ¬ step.readRes ≤ 0)]
      exact ⟨_, _, _, rfl⟩

/-- Witness for the amended C4: a failed read (`read()` returned 0) on an
already-open, correctly positioned segment yields `IO_ERROR`. -/
theorem claim_C4_read_requests_witness :
    segRequest C0 { xlogid := 1, xrecoff := 0 } 10 = min 10 16777216 ∧
    XLogReadIter C0 { openRes := OpenRes.ok, seekOk := true, readRes := 0 }
      { sendFileOpen := true, sendId := 1, sendSeg := 0, sendOff := 0 }
      { xlogid := 1, xrecoff := 0 } 10 = IterOut.err XlrErr.IO_ERROR := by
  have h := claim_C4_read_requests C0
    { openRes := OpenRes.ok, seekOk := true, readRes := 0 }
    { sendFileOpen := true, sendId := 1, sendSeg := 0, sendOff := 0 }
    { xlogid := 1, xrecoff := 0 } 10
  have h2 := h.2 { sendFileOpen := true, sendId := 1, sendSeg := 0, sendOff := 0 }
    (by decide) (Or.inr rfl)
  exact ⟨h.1, h2.1 (by decide)⟩

/-- Claim C6: when the post-frame transport flush fails, `XLogSend`
returns failure and performs no update — neither the local `sentPtr` nor
the slot's published `sentPtr` changes. -/
theorem claim_C6_flush_failure_no_update (C : WalSndConsts)
    (Rqst : XLogRecPtr) (steps : List FsStep) (lrl lrs : Nat)
    (st : SndState) (r : SendOk) (em : SendEmit)
    (heq : XLogSendM C Rqst steps lrl lrs false st = SendOut.ok r)
    (hem : r.emit = some em) :
    r.result = false ∧ r.st.sentPtr = st.sentPtr ∧
      r.st.slotHistory = st.slotHistory := by
  by_cases hq : XLByteLE Rqst st.sentPtr
  · unfold XLogSendM at heq
    rw [if_pos hq] at heq
    cases heq
    simp at hem
  · unfold XLogSendM at heq
    rw [if_neg hq] at heq
    split at heq
    · dsimp only at heq
      split at heq
      · simp at heq
      · simp at heq
      · cases heq
        exact ⟨rfl, rfl, rfl⟩
    · next hff => exact absurd rfl hff

/-- Witness for C6: a concrete frame whose flush fails; the returned state
keeps `sentPtr = (1,0)` and the empty slot history. -/
theorem claim_C6_flush_failure_no_update_witness :
    XLogSendM C0 { xlogid := 1, xrecoff := 100 }
      [{ openRes := OpenRes.ok, seekOk := true, readRes := 100 }] 0 0 false
      { sentPtr := { xlogid := 1, xrecoff := 0 }, slotHistory := []
        rd := { sendFileOpen := false, sendId := 0, sendSeg := 0, sendOff := 0 } } =
      SendOut.ok
        { st := { sentPtr := { xlogid := 1, xrecoff := 0 }, slotHistory := []
                  rd := { sendFileOpen := true, sendId := 1, sendSeg := 0, sendOff := 100 } }
          result := false, caughtup := true
          emit := some { dataStart := { xlogid := 1, xrecoff := 0 }
                         walEnd := { xlogid := 1, xrecoff := 100 }, nbytes := 100 } } ∧
    (false = false ∧
      ({ xlogid := 1, xrecoff := 0 } : XLogRecPtr) = { xlogid := 1, xrecoff := 0 } ∧
      ([] : List XLogRecPtr) = []) := by
  refine ⟨by decide, ?_⟩
  exact claim_C6_flush_failure_no_update C0 { xlogid := 1, xrecoff := 100 }
    [{ openRes := OpenRes.ok, seekOk := true, readRes := 100 }] 0 0
    { sentPtr := { xlogid := 1, xrecoff := 0 }, slotHistory := []
      rd := { sendFileOpen := false, sendId := 0, sendSeg := 0, sendOff := 0 } }
    { st := { sentPtr := { xlogid := 1, xrecoff := 0 }, slotHistory := []
              rd := { sendFileOpen := true, sendId := 1, sendSeg := 0, sendOff := 100 } }
      result := false, caughtup := true
      emit := some { dataStart := { xlogid := 1, xrecoff := 0 }
                     walEnd := { xlogid := 1, xrecoff := 100 }, nbytes := 100 } }
    { dataStart := { xlogid := 1, xrecoff := 0 }
      walEnd := { xlogid := 1, xrecoff := 100 }, nbytes := 100 }
    (by decide) rfl

/-- Claim C10: with `sentPtr = (5, FILE_SIZE)` and `durableFlushPos =
(6, 0)`, the caught-up quick exit does not trigger (the comparison uses
`sentPtr` before the reserved-segment skip), and `XLogSend` emits a `'d'`
frame with zero WAL bytes, `dataStart = walEnd = (6, 0)`, `caughtup =
true`, and `sentPtr` advanced and published as `(6, 0)`. -/
theorem claim_C10_boundary_zero_frame :
    ¬ XLByteLE { xlogid := 6, xrecoff := 0 } { xlogid := 5, xrecoff := 4278190080 } ∧
    XLogSendM C0 { xlogid := 6, xrecoff := 0 } [] 0 0 true
      { sentPtr := { xlogid := 5, xrecoff := 4278190080 }, slotHistory := []
        rd := { sendFileOpen := false, sendId := 0, sendSeg := 0, sendOff := 0 } } =
      SendOut.ok
        { st := { sentPtr := { xlogid := 6, xrecoff := 0 }
                  slotHistory := [{ xlogid := 6, xrecoff := 0 }]
                  rd := { sendFileOpen := false, sendId := 0, sendSeg := 0, sendOff := 0 } }
          result := true, caughtup := true
          emit := some { dataStart := { xlogid := 6, xrecoff := 0 }
                         walEnd := { xlogid := 6, xrecoff := 0 }, nbytes := 0 } } := by
  decide

/-- Claim C2: for every frame `XLogSend` emits (given the spec constraints
on the constants and the precondition `durableFlushPos > sentPtr`), the
payload length `nbytes` satisfies `nbytes ≤ MAX_SEND_SIZE`, is non-zero
when `caughtup = false`, and `dataStart + nbytes ≤ walEnd`, where `walEnd`
is the `GetFlushRecPtr` value observed at the start of the call. -/
theorem claim_C2_frame_bounds (C : WalSndConsts) (hC : ConstsWF C)
    (Rqst : XLogRecPtr) (steps : List FsStep) (lrl lrs : Nat) (flushOk : Bool)
    (st : SndState) (hs : PtrWF st.sentPtr) (hr : PtrWF Rqst)
    (hrF : Rqst.xrecoff < C.XLogFileSize)
    (hlt : XLByteLT st.sentPtr Rqst)
    (r : SendOk) (em : SendEmit)
    (heq : XLogSendM C Rqst steps lrl lrs flushOk st = SendOut.ok r)
    (hem : r.emit = some em) :
    em.nbytes ≤ C.MAX_SEND_SIZE ∧
    (r.caughtup = false → 0 < em.nbytes) ∧
    XLByteLE { xlogid := em.dataStart.xlogid
               xrecoff := em.dataStart.xrecoff + em.nbytes } em.walEnd ∧
    em.walEnd = Rqst := by
  have hq : ¬ XLByteLE Rqst st.sentPtr := (XLByteLT_iff_not_le st.sentPtr Rqst).mp hlt
  have hMp : 0 < C.MAX_SEND_SIZE := lt_of_lt_of_le hC.blcksz_pos hC.blcksz_le_max
  have hFW : C.XLogFileSize < W32 := by have := hC.no_overflow; omega
  unfold XLogSendM at heq
  rw [if_neg hq] at heq
  dsimp only at heq
  rcases hfr : XLogSendFrame C st.sentPtr Rqst with ⟨s, e, cu⟩
  rw [hfr] at heq
  dsimp only at heq
  obtain ⟨h1, h2, h3, h4, h5, h6, h7, h8, h9, h10⟩ :=
    XLogSendFrame_spec C hC st.sentPtr Rqst hs hr hrF hq s e cu hfr
  have hnb : sub32 e.xrecoff s.xrecoff = e.xrecoff - s.xrecoff :=
    sub32_eq _ _ h2 (lt_of_le_of_lt h3 hFW)
  rw [hnb] at heq
  split at heq
  · exact SendOut.noConfusion heq
  · exact SendOut.noConfusion heq
  · split at heq <;>
      (cases heq
       simp only [Option.some.injEq] at hem
       subst hem
       refine ⟨h5, ?_, ?_, rfl⟩
       · intro hcf
         have := (h7 hcf).2.1
         dsimp only
         omega
       · unfold XLByteLE at h8 ⊢
         dsimp only
         omega)

/-- Witness for C2 at `sentPtr = (1,0)`, request `(1,300)`, one successful
300-byte read and a successful flush. -/
theorem claim_C2_frame_bounds_witness :
    (300 : Nat) ≤ C0.MAX_SEND_SIZE ∧
    (true = false → (0 : Nat) < 300) ∧
    XLByteLE { xlogid := 1, xrecoff := 0 + 300 } { xlogid := 1, xrecoff := 300 } ∧
    ({ xlogid := 1, xrecoff := 300 } : XLogRecPtr) =
      { xlogid := 1, xrecoff := 300 } := by
  exact claim_C2_frame_bounds C0 C0_wf { xlogid := 1, xrecoff := 300 }
    [{ openRes := OpenRes.ok, seekOk := true, readRes := 300 }] 0 0 true
    { sentPtr := { xlogid := 1, xrecoff := 0 }, slotHistory := []
      rd := { sendFileOpen := false, sendId := 0, sendSeg := 0, sendOff := 0 } }
    (by decide) (by decide) (by decide) (by decide)
    { st := { sentPtr := { xlogid := 1, xrecoff := 300 }
              slotHistory := [{ xlogid := 1, xrecoff := 300 }]
              rd := { sendFileOpen := true, sendId := 1, sendSeg := 0, sendOff := 300 } }
      result := true, caughtup := true
      emit := some { dataStart := { xlogid := 1, xrecoff := 0 }
                     walEnd := { xlogid := 1, xrecoff := 300 }, nbytes := 300 } }
    { dataStart := { xlogid := 1, xrecoff := 0 }
      walEnd := { xlogid := 1, xrecoff := 300 }, nbytes := 300 }
    (by decide) rfl

/-- What one successful `XLogSend` does to the local `sentPtr` and the
slot-write history: either nothing (quick exit or flush failure), or it
appends a new, no-smaller, in-range `sentPtr`. -/
theorem XLogSendM_publish_spec (C : WalSndConsts) (hC : ConstsWF C)
    (Rqst : XLogRecPtr) (steps : List FsStep) (lrl lrs : Nat) (flushOk : Bool)
    (st : SndState) (hs : PtrWF st.sentPtr) (hr : PtrWF Rqst)
    (hrF : Rqst.xrecoff < C.XLogFileSize)
    (r : SendOk)
    (heq : XLogSendM C Rqst steps lrl lrs flushOk st = SendOut.ok r) :
    (r.st.slotHistory = st.slotHistory ∧ r.st.sentPtr = st.sentPtr) ∨
    (r.st.slotHistory = st.slotHistory ++ [r.st.sentPtr] ∧
      XLByteLE st.sentPtr r.st.sentPtr ∧ PtrWF r.st.sentPtr) := by
  by_cases hq : XLByteLE Rqst st.sentPtr
  · unfold XLogSendM at heq
    rw [if_pos hq] at heq
    cases heq
    exact Or.inl ⟨rfl, rfl⟩
  · unfold XLogSendM at heq
    rw [if_neg hq] at heq
    dsimp only at heq
    rcases hfr : XLogSendFrame C st.sentPtr Rqst with ⟨s, e, cu⟩
    rw [hfr] at heq
    dsimp only at heq
    obtain ⟨h1, h2, h3, h4, h5, h6, h7, h8, h9, h10⟩ :=
      XLogSendFrame_spec C hC st.sentPtr Rqst hs hr hrF hq s e cu hfr
    split at heq
    · exact SendOut.noConfusion heq
    · exact SendOut.noConfusion heq
    · split at heq
      · cases heq
        exact Or.inl ⟨rfl, rfl⟩
      · cases heq
        exact Or.inr ⟨rfl, XLByteLE_of_lt h9, h10⟩

/-- Auxiliary: `getLast?` of a one-element extension. -/
theorem getLast?_snoc (l : List XLogRecPtr) (a : XLogRecPtr) :
    (l ++ [a]).getLast? = some a := by
  simp

/-- The slot-write history stays a `XLByteLE`-chain across any run of
`XLogSend` calls, provided every observed flush request is a well-formed
writer position. -/
theorem senderRun_chain (C : WalSndConsts) (hC : ConstsWF C) :
    ∀ (sends : List SendArgs) (st : SndState),
      PtrWF st.sentPtr →
      (∀ a ∈ sends, PtrWF a.rqst ∧ a.rqst.xrecoff < C.XLogFileSize) →
      List.Chain' XLByteLE st.slotHistory →
      (∀ x, st.slotHistory.getLast? = some x → XLByteLE x st.sentPtr) →
      List.Chain' XLByteLE (senderRun C sends st).slotHistory := by
  intro sends
  induction sends with
  | nil =>
      intro st _ _ h3 _
      simpa [senderRun] using h3
  | cons a rest ih =>
      intro st h1 h2 h3 h4
      have ha := h2 a (List.mem_cons_self a rest)
      have hrest : ∀ x ∈ rest, PtrWF x.rqst ∧ x.rqst.xrecoff < C.XLogFileSize :=
        fun x hx => h2 x (List.mem_cons_of_mem _ hx)
      show List.Chain' XLByteLE (senderRun C (a :: rest) st).slotHistory
      rw [senderRun]
      cases hds : doSend C a st with
      | err e => exact h3
      | outOfSteps => exact h3
      | ok r =>
          dsimp only
          have hpub := XLogSendM_publish_spec C hC a.rqst a.steps a.lastRemovedLog
            a.lastRemovedSeg a.flushOk st h1 ha.1 ha.2 r hds
          have hch' : List.Chain' XLByteLE r.st.slotHistory := by
            rcases hpub with ⟨hh, _⟩ | ⟨hh, hle, _⟩
            · rw [hh]; exact h3
            · rw [hh]
              refine List.chain'_append.mpr ⟨h3, List.chain'_singleton _, ?_⟩
              intro x hx y hy
              simp at hy
              subst hy
              exact XLByteLE_trans (h4 x hx) hle
          have hlast' : ∀ x, r.st.slotHistory.getLast? = some x →
              XLByteLE x r.st.sentPtr := by
            rcases hpub with ⟨hh, hsp⟩ | ⟨hh, hle, _⟩
            · intro x hx
              rw [hh] at hx
              rw [hsp]
              exact h4 x hx
            · intro x hx
              rw [hh, getLast?_snoc] at hx
              cases hx
              exact XLByteLE_refl _
          have hwf' : PtrWF r.st.sentPtr := by
            rcases hpub with ⟨_, hsp⟩ | ⟨_, _, hwf⟩
            · rw [hsp]; exact h1
            · exact hwf
          by_cases hres : r.result = true
          · rw [if_pos hres]
            exact ih r.st hwf' hrest hch' hlast'
          · rw [if_neg hres]
            exact hch'

/-- Claim C3: over a sender's lifetime the sequence of `sentPtr` values
published into its shared slot is non-decreasing: the slot starts at
`(0,0)` on acquire, is set to the handshake start point, and every
successful `XLogSend` publishes an end position no smaller than the
previous one. -/
theorem claim_C3_sentPtr_monotone (C : WalSndConsts) (hC : ConstsWF C)
    (startpoint : XLogRecPtr) (hsp : PtrWF startpoint)
    (sends : List SendArgs)
    (hsends : ∀ a ∈ sends, PtrWF a.rqst ∧ a.rqst.xrecoff < C.XLogFileSize) :
    List.Chain' XLByteLE (senderLifetime C startpoint sends).slotHistory := by
  unfold senderLifetime
  refine senderRun_chain C hC sends _ hsp hsends ?_ ?_
  · refine List.chain'_cons.mpr ⟨?_, List.chain'_singleton _⟩
    unfold XLByteLE
    dsimp only
    omega
  · intro x hx
    have hx' : startpoint = x := by
      simpa using hx
    subst hx'
    exact XLByteLE_refl _

/-- Witness for C3: acquire, handshake at `(1,0)`, then one 300-byte send;
the published history `[(0,0), (1,0), (1,300)]` is a chain. -/
theorem claim_C3_sentPtr_monotone_witness :
    List.Chain' XLByteLE
      (senderLifetime C0 { xlogid := 1, xrecoff := 0 }
        [{ rqst := { xlogid := 1, xrecoff := 300 }
           steps := [{ openRes := OpenRes.ok, seekOk := true, readRes := 300 }]
           lastRemovedLog := 0, lastRemovedSeg := 0, flushOk := true }]).slotHistory := by
  exact claim_C3_sentPtr_monotone C0 C0_wf { xlogid := 1, xrecoff := 0 } (by decide)
    [{ rqst := { xlogid := 1, xrecoff := 300 }
       steps := [{ openRes := OpenRes.ok, seekOk := true, readRes := 300 }]
       lastRemovedLog := 0, lastRemovedSeg := 0, flushOk := true }]
    (by decide)

/-- In one copy-loop iteration, `WAL_REMOVED` arises exactly from an
`ENOENT` on a segment open. -/
theorem XLogReadIter_wal_removed_iff (C : WalSndConsts) (step : FsStep)
    (st : ReadState) (r : XLogRecPtr) (n : Nat) :
    XLogReadIter C step st r n = IterOut.err XlrErr.WAL_REMOVED ↔
      (¬ inCurrentSeg C st r ∧ step.openRes = OpenRes.enoent) := by
  unfold XLogReadIter XLogReadOpen
  by_cases hseg : inCurrentSeg C st r
  · rw [if_pos hseg]
    dsimp only
    constructor
    · intro h
      split at h
      · simp at h
      · split at h
        · simp at h
        · simp at h
    · intro h
      exact absurd hseg h.1
  · rw [if_neg hseg]
    cases hop : step.openRes <;> dsimp only
    · constructor
      · intro h
        split at h
        · simp at h
        · split at h
          · simp at h
          · simp at h
      · intro h
        exact absurd h.2 (by simp)
    · exact ⟨fun _ => ⟨hseg, rfl⟩, fun _ => rfl⟩
    · constructor
      · intro h
        simp at h
      · intro h
        exact absurd h.2 (by simp)

/-- Across the whole copy loop, `WAL_REMOVED` arises exactly when some
iteration hits an `ENOENT` open. -/
theorem XLogReadLoop_wal_removed_iff (C : WalSndConsts) :
    ∀ (steps : List FsStep) (st : ReadState) (r : XLogRecPtr) (n : Nat),
      (XLogReadLoop C steps st r n = ReadOut.err XlrErr.WAL_REMOVED ↔
        loopHitsEnoent C steps st r n) := by
  intro steps
  induction steps with
  | nil =>
      intro st r n
      cases n with
      | zero => simp [XLogReadLoop, loopHitsEnoent]
      | succ m => simp [XLogReadLoop, loopHitsEnoent]
  | cons step rest ih =>
      intro st r n
      cases n with
      | zero => simp [XLogReadLoop, loopHitsEnoent]
      | succ m =>
          rw [XLogReadLoop, loopHitsEnoent]
          cases hit : XLogReadIter C step st r (m + 1) with
          | err e =>
              cases e with
              | WAL_REMOVED =>
                  have hen := (XLogReadIter_wal_removed_iff C step st r (m + 1)).mp hit
                  constructor
                  · intro _
                    exact ⟨by omega, Or.inl hen⟩
                  · intro _
                    rfl
              | IO_ERROR =>
                  constructor
                  · intro h
                    simp at h
                  · rintro ⟨-, h | ⟨q2, st2, r2, n2, hit2, -⟩⟩
                    · have := (XLogReadIter_wal_removed_iff C step st r (m + 1)).mpr h
                      rw [hit] at this
                      simp at this
                    · exact IterOut.noConfusion hit2
          | ok q st2 r2 n2 =>
              constructor
              · intro h
                exact ⟨by omega, Or.inr ⟨q, st2, r2, n2, rfl, (ih st2 r2 n2).mp h⟩⟩
              · rintro ⟨-, h | ⟨q3, st3, r3, n3, hit3, hp⟩⟩
                · have := (XLogReadIter_wal_removed_iff C step st r (m + 1)).mpr h
                  rw [hit] at this
                  exact IterOut.noConfusion this
                · injection hit3 with e1 e2 e3 e4
                  subst e2; subst e3; subst e4
                  exact (ih st2 r2 n2).mpr hp

/-- Claim C5: `XLogRead` fails with `WAL_REMOVED` in exactly two
situations — a segment open returns `ENOENT` (any other open error maps to
`IO_ERROR`), or, after all bytes were copied, the segment of the original
start position is at or below the writer's last-removed watermark; only
the start segment enters the post-read check. -/
theorem claim_C5_wal_removed_exactly (C : WalSndConsts)
    (lrl lrs : Nat) (steps : List FsStep) (st : ReadState)
    (recptr : XLogRecPtr) (nbytes : Nat) :
    (XLogRead C lrl lrs steps st recptr nbytes = ReadOut.err XlrErr.WAL_REMOVED ↔
      (loopHitsEnoent C steps st recptr nbytes ∨
       (∃ st2, XLogReadLoop C steps st recptr nbytes = ReadOut.ok st2 ∧
         (recptr.xlogid < lrl ∨ (recptr.xlogid = lrl ∧
           recptr.xrecoff / C.XLogSegSize ≤ lrs))))) ∧
    (∀ (step2 : FsStep) (st2 : ReadState) (r2 : XLogRecPtr) (n2 : Nat),
      ¬ inCurrentSeg C st2 r2 → step2.openRes = OpenRes.otherErr →
      XLogReadIter C step2 st2 r2 n2 = IterOut.err XlrErr.IO_ERROR) ∧
    (∀ (step2 : FsStep) (st2 : ReadState) (r2 : XLogRecPtr) (n2 : Nat),
      ¬ inCurrentSeg C st2 r2 → step2.openRes = OpenRes.enoent →
      XLogReadIter C step2 st2 r2 n2 = IterOut.err XlrErr.WAL_REMOVED) := by
  refine ⟨?_, ?_, ?_⟩
  · unfold XLogRead
    cases hloop : XLogReadLoop C steps st recptr nbytes with
    | outOfSteps =>
        constructor
        · intro h
          simp at h
        · rintro (h | ⟨st2, hok, -⟩)
          · have := (XLogReadLoop_wal_removed_iff C steps st recptr nbytes).mpr h
            rw [hloop] at this
            exact ReadOut.noConfusion this
          · exact ReadOut.noConfusion hok
    | err e =>
        cases e with
        | WAL_REMOVED =>
            constructor
            · intro _
              exact Or.inl ((XLogReadLoop_wal_removed_iff C steps st recptr
                nbytes).mp hloop)
            · intro _
              rfl
        | IO_ERROR =>
            constructor
            · intro h
              simp at h
            · rintro (h | ⟨st2, hok, -⟩)
              · have := (XLogReadLoop_wal_removed_iff C steps st recptr nbytes).mpr h
                rw [hloop] at this
                simp at this
              · exact ReadOut.noConfusion hok
    | ok st2 =>
        dsimp only
        constructor
        · intro h
          split at h
          · next hchk => exact Or.inr ⟨st2, rfl, hchk⟩
          · simp at h
        · rintro (h | ⟨st3, hok, hchk⟩)
          · have := (XLogReadLoop_wal_removed_iff C steps st recptr nbytes).mpr h
            rw [hloop] at this
            exact ReadOut.noConfusion this
          · rw [if_pos hchk]
  · intro step2 st2 r2 n2 hseg hop
    unfold XLogReadIter XLogReadOpen
    rw [if_neg hseg, hop]
  · intro step2 st2 r2 n2 hseg hop
    exact (XLogReadIter_wal_removed_iff C step2 st2 r2 n2).mpr ⟨hseg, hop⟩

/-- Witness for C5: an `ENOENT` on the first open yields `WAL_REMOVED`,
obtained through the characterization. -/
theorem claim_C5_wal_removed_exactly_witness :
    XLogRead C0 0 0 [{ openRes := OpenRes.enoent, seekOk := true, readRes := 0 }]
      { sendFileOpen := false, sendId := 0, sendSeg := 0, sendOff := 0 }
      { xlogid := 1, xrecoff := 0 } 10 = ReadOut.err XlrErr.WAL_REMOVED := by
  refine (claim_C5_wal_removed_exactly C0 0 0
    [{ openRes := OpenRes.enoent, seekOk := true, readRes := 0 }]
    { sendFileOpen := false, sendId := 0, sendSeg := 0, sendOff := 0 }
    { xlogid := 1, xrecoff := 0 } 10).1.mpr (Or.inl ?_)
  rw [loopHitsEnoent]
  exact ⟨by decide, Or.inl ⟨by decide, rfl⟩⟩

/-- When `XLogSendFrame` reports caught-up, the frame end is exactly the
requested flush position. -/
theorem XLogSendFrame_cu_eq (C : WalSndConsts) (sentPtr Rqst s e : XLogRecPtr)
    (cu : Bool) (hfr : XLogSendFrame C sentPtr Rqst = (s, e, cu))
    (hcu : cu = true) : e = Rqst := by
  unfold XLogSendFrame at hfr
  dsimp only at hfr
  split at hfr
  · simp only [Prod.mk.injEq] at hfr
    exact hfr.2.1.symm
  · simp only [Prod.mk.injEq] at hfr
    rw [← hfr.2.2] at hcu
    exact absurd hcu (by simp)

/-- A successful `XLogSend` that reports caught-up has pushed `sentPtr` to
(at least) the flush request it observed. -/
theorem XLogSendM_caughtup_reached (C : WalSndConsts) (Rqst : XLogRecPtr)
    (steps : List FsStep) (lrl lrs : Nat) (flushOk : Bool) (st : SndState)
    (r : SendOk)
    (heq : XLogSendM C Rqst steps lrl lrs flushOk st = SendOut.ok r)
    (hres : r.result = true) (hcu : r.caughtup = true) :
    XLByteLE Rqst r.st.sentPtr := by
  by_cases hq : XLByteLE Rqst st.sentPtr
  · unfold XLogSendM at heq
    rw [if_pos hq] at heq
    cases heq
    exact hq
  · unfold XLogSendM at heq
    rw [if_neg hq] at heq
    dsimp only at heq
    rcases hfr : XLogSendFrame C st.sentPtr Rqst with ⟨s, e, cu⟩
    rw [hfr] at heq
    dsimp only at heq
    split at heq
    · exact SendOut.noConfusion heq
    · exact SendOut.noConfusion heq
    · split at heq
      · cases heq
        exact absurd hres (by simp)
      · cases heq
        have he : e = Rqst := XLogSendFrame_cu_eq C st.sentPtr Rqst s e cu hfr hcu
        dsimp only
        rw [he]
        exact XLByteLE_refl Rqst

/-- `WalSndLoopPhase3` (the send/nap/probe part of a loop iteration) never
produces the copy-done exit, and never flips `shutdown_requested`. -/
theorem WalSndLoopPhase3_no_copyDone (C : WalSndConsts) (inp : IterIn)
    (st : LoopState) :
    (∀ t p, WalSndLoopPhase3 C inp st ≠ LoopOut.copyDoneExit t p) ∧
    (∀ st2, WalSndLoopPhase3 C inp st = LoopOut.next st2 →
      st2.shutdown_requested = st.shutdown_requested) := by
  constructor
  · intro t p h
    unfold WalSndLoopPhase3 CheckClosedConnectionStep at h
    repeat' split at h
    all_goals simp_all
  · intro st2 h
    unfold WalSndLoopPhase3 CheckClosedConnectionStep at h
    repeat' split at h
    all_goals
      first
      | exact LoopOut.noConfusion h
      | (injection h with h2; subst h2; rfl)

/-- Claim C7: with the supervisor alive, in an iteration entered in
final-flush mode (`ready_to_stop`, no prior `shutdown_requested`): a
successful, caught-up framer call makes the iteration emit the `'C'`
`"COPY 0"` trailer and exit 0, with `sentPtr` at or past the observed
durable flush position; a successful, not-caught-up call neither exits
with the trailer nor sets `shutdown_requested`; a failed call breaks out
of the loop. -/
theorem claim_C7_final_flush (C : WalSndConsts) (inp : IterIn) (st : LoopState)
    (ha : inp.alive = true) (hrts : st.ready_to_stop = true)
    (hsr : st.shutdown_requested = false) :
    (∀ r, doSend C inp.send1 st.snd = SendOut.ok r → r.result = true →
      r.caughtup = true →
      (WalSndLoopIter C inp st = LoopOut.copyDoneExit 'C' "COPY 0" ∧
       XLByteLE inp.send1.rqst r.st.sentPtr)) ∧
    (∀ r, doSend C inp.send1 st.snd = SendOut.ok r → r.result = true →
      r.caughtup = false →
      ((∀ t p, WalSndLoopIter C inp st ≠ LoopOut.copyDoneExit t p) ∧
       (∀ st2, WalSndLoopIter C inp st = LoopOut.next st2 →
         st2.shutdown_requested = false))) ∧
    (∀ r, doSend C inp.send1 st.snd = SendOut.ok r → r.result = false →
      WalSndLoopIter C inp st = LoopOut.sendFailBreak) := by
  have hstep : ∀ r, doSend C inp.send1 st.snd = SendOut.ok r →
      WalSndLoopIter C inp st =
        (if r.result = false then LoopOut.sendFailBreak
         else WalSndLoopPhase2 C inp
           { gotSIGHUP := false, ready_to_stop := st.ready_to_stop
             shutdown_requested := st.shutdown_requested || r.caughtup
             caughtup := r.caughtup, snd := r.st }) := by
    intro r hds
    unfold WalSndLoopIter
    rw [if_neg (by rw [ha]; exact fun h => Bool.noConfusion h)]
    dsimp only
    rw [if_pos hrts, hds]
  refine ⟨?_, ?_, ?_⟩
  · intro r hds hres hcu
    have h1 := hstep r hds
    rw [if_neg (by rw [hres]; exact fun h => Bool.noConfusion h)] at h1
    refine ⟨?_, ?_⟩
    · rw [h1]
      unfold WalSndLoopPhase2
      rw [if_pos (show _ = true by dsimp only; rw [hsr, hcu]; rfl)]
    · unfold doSend at hds
      exact XLogSendM_caughtup_reached C inp.send1.rqst inp.send1.steps
        inp.send1.lastRemovedLog inp.send1.lastRemovedSeg inp.send1.flushOk
        st.snd r hds hres hcu
  · intro r hds hres hcu
    have h1 := hstep r hds
    rw [if_neg (by rw [hres]; exact fun h => Bool.noConfusion h)] at h1
    have h2 : WalSndLoopIter C inp st = WalSndLoopPhase3 C inp
        { gotSIGHUP := false, ready_to_stop := st.ready_to_stop
          shutdown_requested := st.shutdown_requested || r.caughtup
          caughtup := r.caughtup, snd := r.st } := by
      rw [h1]
      unfold WalSndLoopPhase2
      rw [if_neg (by dsimp only; rw [hsr, hcu]; exact fun h => Bool.noConfusion h)]
    have h3 := WalSndLoopPhase3_no_copyDone C inp
      { gotSIGHUP := false, ready_to_stop := st.ready_to_stop
        shutdown_requested := st.shutdown_requested || r.caughtup
        caughtup := r.caughtup, snd := r.st }
    constructor
    · intro t p
      rw [h2]
      exact h3.1 t p
    · intro st2 hnext
      rw [h2] at hnext
      have h4 := h3.2 st2 hnext
      rw [h4]
      dsimp only
      rw [hsr, hcu]
      rfl
  · intro r hds hres
    have h1 := hstep r hds
    rw [if_pos hres] at h1
    exact h1

/-- Witness for C7: final-flush iteration whose framer quick-exits as
caught up; the iteration emits the trailer and the request is covered. -/
theorem claim_C7_final_flush_witness :
    WalSndLoopIter C0
      { alive := true
        send1 := { rqst := { xlogid := 1, xrecoff := 100 }, steps := []
                   lastRemovedLog := 0, lastRemovedSeg := 0, flushOk := true }
        send2 := { rqst := { xlogid := 1, xrecoff := 100 }, steps := []
                   lastRemovedLog := 0, lastRemovedSeg := 0, flushOk := true }
        ccAvail := 0, ccByte := 0 }
      { gotSIGHUP := false, ready_to_stop := true, shutdown_requested := false
        caughtup := false
        snd := { sentPtr := { xlogid := 1, xrecoff := 100 }, slotHistory := []
                 rd := { sendFileOpen := false, sendId := 0, sendSeg := 0, sendOff := 0 } } } =
      LoopOut.copyDoneExit 'C' "COPY 0" ∧
    XLByteLE { xlogid := 1, xrecoff := 100 } { xlogid := 1, xrecoff := 100 } := by
  exact (claim_C7_final_flush C0
    { alive := true
      send1 := { rqst := { xlogid := 1, xrecoff := 100 }, steps := []
                 lastRemovedLog := 0, lastRemovedSeg := 0, flushOk := true }
      send2 := { rqst := { xlogid := 1, xrecoff := 100 }, steps := []
                 lastRemovedLog := 0, lastRemovedSeg := 0, flushOk := true }
      ccAvail := 0, ccByte := 0 }
    { gotSIGHUP := false, ready_to_stop := true, shutdown_requested := false
      caughtup := false
      snd := { sentPtr := { xlogid := 1, xrecoff := 100 }, slotHistory := []
               rd := { sendFileOpen := false, sendId := 0, sendSeg := 0, sendOff := 0 } } }
    rfl rfl rfl).1
    { st := { sentPtr := { xlogid := 1, xrecoff := 100 }, slotHistory := []
              rd := { sendFileOpen := false, sendId := 0, sendSeg := 0, sendOff := 0 } }
      result := true, caughtup := true, emit := none }
    (by decide) rfl rfl

end Walsender
